import Mathlib

/-!
Shallow embedding of the session-orchestration and signaling layer of the
remote-app-client repository.

Modelled source files:
* `src/unnamed/part_011` — `RemoteAccessStateManager` (singleton holding the
  remote-access session: roomId, peer connection, ICE candidate queue,
  processed-offer set) and its event handlers.
* `src/src/hooks/useScreenShare.ts` — the screen-share hook's state and its
  signaling handlers.
* `src/src/utils/signalingSocketManager.ts` — `SignalingSocketManager`
  (connect guards, socket event handlers, event-handler registry).
* `src/src/services/WebRTCService.ts` and `src/src/services/callService.ts`
  — the reconnection counters.

Conventions of the embedding: the JavaScript code is single-threaded and each
socket event handler runs to completion on the success path of its awaited
RTC operations, so every handler is a pure function
`state → message → state × List OutMsg` where the returned list holds the
messages emitted through `socketManager.emit` during that handler, in
emission order.  `RTCPeerConnection` is modelled by the `PeerConn` record:
`setRemoteDescription`/`setLocalDescription` store the description,
`addIceCandidate` appends to `appliedCandidates` (recording application
order), `addTrack` appends to `tracks`; `createOffer`/`createAnswer` are
modelled by the deterministic stand-ins `createOfferSdp`/`createAnswerSdp`.
Closing a peer connection records its id in a `closedPcs` log so that
theorems can speak about release of the direct-connection handle.  Handlers
are total functions: the source catches every error internally and never
rethrows to the routing caller, which the embedding renders as totality plus
an explicit `error` field.
-/

/-- Session descriptions are opaque strings on the wire. -/
abbrev Sdp := String

/-- ICE candidates are opaque payloads on the wire. -/
abbrev IceCand := String

/-- Model of an `RTCPeerConnection`: an identity (allocation counter), the
remote and local descriptions, the candidates applied so far in application
order, and the media tracks added. -/
structure PeerConn where
  id : Nat
  remoteDescription : Option Sdp
  localDescription : Option Sdp
  appliedCandidates : List IceCand
  tracks : List Nat
deriving DecidableEq, Repr

/-- Messages emitted through `socketManager.emit`, in the order the source
emits them. -/
inductive OutMsg where
  | register (fromUser : String)
  | joinRoom (roomId : String)
  | request (target roomId fromUser : String)
  | offer (roomId : String) (sdp : Sdp) (target : String)
  | offerBroadcast (roomId : String) (sdp : Sdp)
  | answer (roomId : String) (sdp : Sdp)
  | iceCandidate (roomId : String) (c : IceCand)
  | stopped (roomId : String)
  | shareRequest (target roomId fromUser : String)
  | stopSharing (roomId : String)
  | debugMsg (target message : String)
deriving DecidableEq, Repr

/-- State of the `RemoteAccessStateManager` singleton in
`src/unnamed/part_011`: the public `state` object plus the private
connection-specific fields (`peerConnection`, `roomId`,
`queuedIceCandidates`, `processedOffers`, `currentUserId`).  `nextPcId` is
the allocation counter for peer-connection identities and `closedPcs`
records the ids of peer connections that have been closed. -/
structure RAState where
  currentUserId : Option String
  roomId : Option String
  peerConnection : Option PeerConn
  queuedIceCandidates : List IceCand
  processedOffers : List String
  isControlling : Bool
  isBeingControlled : Bool
  controllingUserId : Option String
  controlledByUserId : Option String
  error : Option String
  localStream : Option Nat
  remoteStream : Option Nat
  closedPcs : List Nat
  nextPcId : Nat
deriving DecidableEq, Repr

/-- Fresh manager state, before `initialize` has run. -/
def raInit : RAState :=
  { currentUserId := none
    roomId := none
    peerConnection := none
    queuedIceCandidates := []
    processedOffers := []
    isControlling := false
    isBeingControlled := false
    controllingUserId := none
    controlledByUserId := none
    error := none
    localStream := none
    remoteStream := none
    closedPcs := []
    nextPcId := 0 }

/-- Deterministic stand-in for `RTCPeerConnection.createAnswer` after the
given remote offer has been applied. -/
def createAnswerSdp (offer : Sdp) : Sdp := "answer-" ++ offer

/-- Deterministic stand-in for `RTCPeerConnection.createOffer` for a given
room. -/
def createOfferSdp (roomId : String) : Sdp := "offer-" ++ roomId

/-- `if (!this.peerConnection) this.createPeerConnection()` followed by use of
`this.peerConnection`: returns the current peer connection, creating a fresh
one only when none exists (part_011 lines 234-237, 398-401, 539-542). -/
def ensurePeerConnection (s : RAState) : PeerConn × RAState :=
  match s.peerConnection with
  | some pc => (pc, s)
  | none =>
    let pc : PeerConn :=
      { id := s.nextPcId, remoteDescription := none, localDescription := none,
        appliedCandidates := [], tracks := [] }
    (pc, { s with peerConnection := some pc, nextPcId := s.nextPcId + 1 })

/-- Payload of a `remote-access-offer` event. -/
structure OfferMsg where
  roomId : String
  offer : Sdp
  targetUserId : String
deriving DecidableEq, Repr

/-- Payload of a `remote-access-answer` event. -/
structure AnswerMsg where
  roomId : String
  answer : Sdp
deriving DecidableEq, Repr

/-- Payload of a `remote-access-ice-candidate` event. -/
structure IceMsg where
  roomId : String
  candidate : IceCand
deriving DecidableEq, Repr

/-- Payload of a `remote-access-request` event. -/
structure ReqMsg where
  fromUserId : String
  roomId : String
  targetUserId : String
deriving DecidableEq, Repr

/-- Payload of a `remote-access-debug` event. -/
structure DebugMsg where
  toUserId : String
  message : String
deriving DecidableEq, Repr

/-- The dedup key built by `handleRemoteAccessOffer`:
`const offerId = ` the room id, a dash, and the target user id. -/
def offerKey (d : OfferMsg) : String := d.roomId ++ "-" ++ d.targetUserId

/-- `handleRemoteAccessOffer` (part_011 lines 205-267).  Guards: target
identity, room match (only when a current room is set), duplicate-offer
dedup.  On acceptance: record the offer key, adopt the room, ensure a peer
connection, set the remote description, apply every queued ICE candidate in
order and clear the queue, then create/set the local answer and emit it. -/
def handleRemoteAccessOffer (s : RAState) (d : OfferMsg) : RAState × List OutMsg :=
  if s.currentUserId ≠ some d.targetUserId then (s, [])
  else if s.roomId ≠ none ∧ s.roomId ≠ some d.roomId then (s, [])
  else if offerKey d ∈ s.processedOffers then (s, [])
  else
    let s1 := { s with processedOffers := offerKey d :: s.processedOffers,
                       roomId := some d.roomId }
    let (pc, s2) := ensurePeerConnection s1
    let pc1 := { pc with remoteDescription := some d.offer,
                         appliedCandidates := pc.appliedCandidates ++ s2.queuedIceCandidates }
    let ans := createAnswerSdp d.offer
    let pc2 := { pc1 with localDescription := some ans }
    ({ s2 with peerConnection := some pc2, queuedIceCandidates := [] },
     [OutMsg.answer d.roomId ans])

/-- `handleRemoteAccessAnswer` (part_011 lines 269-282): drop on room
mismatch or missing peer connection, otherwise set the remote description.
Faithful to the source, the queued ICE candidates are not touched here. -/
def handleRemoteAccessAnswer (s : RAState) (d : AnswerMsg) : RAState × List OutMsg :=
  if some d.roomId ≠ s.roomId then (s, [])
  else
    match s.peerConnection with
    | none => (s, [])
    | some pc =>
      ({ s with peerConnection := some { pc with remoteDescription := some d.answer } }, [])

/-- `handleRemoteAccessIceCandidate` (part_011 lines 284-299): drop on room
mismatch; queue the candidate when there is no peer connection or no remote
description yet; otherwise apply it immediately. -/
def handleRemoteAccessIceCandidate (s : RAState) (d : IceMsg) : RAState × List OutMsg :=
  if some d.roomId ≠ s.roomId then (s, [])
  else
    match s.peerConnection with
    | none => ({ s with queuedIceCandidates := s.queuedIceCandidates ++ [d.candidate] }, [])
    | some pc =>
      match pc.remoteDescription with
      | none => ({ s with queuedIceCandidates := s.queuedIceCandidates ++ [d.candidate] }, [])
      | some _ =>
        let pc1 := { pc with appliedCandidates := pc.appliedCandidates ++ [d.candidate] }
        ({ s with peerConnection := some pc1 }, [])

/-- `startScreenSharing` (part_011 lines 396-528).  `cap` is the capture
environment: `some streamId` when screen capture succeeds, `none` when it
throws (no sources / permission denied).  On failure the error is rethrown
to `handleRemoteAccessRequest`, whose catch stores the message; a debug
message about the failure is emitted first. -/
def startScreenSharing (cap : Option Nat) (s : RAState) (roomId requesting : String) :
    RAState × List OutMsg :=
  let (pc, s1) := ensurePeerConnection s
  match cap with
  | none =>
    ({ s1 with error := some "No screen sources available" },
     [OutMsg.debugMsg requesting "Screen capture failed: No screen sources available"])
  | some streamId =>
    let s2 := { s1 with localStream := some streamId, isBeingControlled := true,
                        controlledByUserId := some requesting }
    let off := createOfferSdp roomId
    let pc1 := { pc with tracks := pc.tracks ++ [streamId], localDescription := some off }
    ({ s2 with peerConnection := some pc1 },
     [OutMsg.offer roomId off requesting,
      OutMsg.debugMsg requesting "Screen capture started and offer sent successfully!"])

/-- `handleRemoteAccessRequest` (part_011 lines 185-203): ignore requests
whose target is not the local user; otherwise adopt the room, mark the
session as being controlled and start screen sharing. -/
def handleRemoteAccessRequest (cap : Option Nat) (s : RAState) (d : ReqMsg) :
    RAState × List OutMsg :=
  if s.currentUserId ≠ some d.targetUserId then (s, [])
  else
    let s1 := { s with roomId := some d.roomId,
                       controlledByUserId := some d.fromUserId,
                       isBeingControlled := true }
    startScreenSharing cap s1 d.roomId d.fromUserId

/-- `handleRemoteAccessDebug` (part_011 lines 306-323): ignore messages
addressed to another user; the handler only logs, so the accepted branch is
also a no-op on state and emits nothing. -/
def handleRemoteAccessDebug (s : RAState) (d : DebugMsg) : RAState × List OutMsg :=
  if s.currentUserId ≠ some d.toUserId then (s, [])
  else (s, [])

/-- The room id built by `startRemoteAccess`
(part_011 line 545). -/
def mkRoomId (uid target : String) (now : Nat) : String :=
  "remote-access-" ++ uid ++ "-to-" ++ target ++ "-" ++ toString now

/-- `startRemoteAccess` (part_011 lines 531-564): throws when no user id is
set; otherwise reuses the existing peer connection (creating one only if
none exists), overwrites `roomId` with a fresh room, and emits `join-room`
and the remote-access request. -/
def startRemoteAccess (s : RAState) (target : String) (now : Nat) :
    Except String (RAState × List OutMsg) :=
  match s.currentUserId with
  | none => Except.error "User ID not set"
  | some uid =>
    let (_, s1) := ensurePeerConnection s
    let r := mkRoomId uid target now
    Except.ok ({ s1 with roomId := some r },
               [OutMsg.joinRoom r, OutMsg.request target r uid])

/-- `stopRemoteAccess` (part_011 lines 566-606): emit the stopped control
message when a room is set, reset the shared state, close the peer
connection, and clear the room, the candidate queue and the processed-offer
set. -/
def stopRemoteAccess (s : RAState) : RAState × List OutMsg :=
  let out := match s.roomId with
    | some r => [OutMsg.stopped r]
    | none => []
  let closed := match s.peerConnection with
    | some pc => s.closedPcs ++ [pc.id]
    | none => s.closedPcs
  ({ s with isControlling := false, isBeingControlled := false,
            controllingUserId := none, controlledByUserId := none,
            remoteStream := none, localStream := none,
            peerConnection := none, roomId := none,
            queuedIceCandidates := [], processedOffers := [],
            closedPcs := closed }, out)

/-- State of the `useScreenShare` hook
(`src/src/hooks/useScreenShare.ts`): the React state variables, the
`roomId` and `peerConnection` refs, the allocation counter for peer
connections, and the log of closed peer-connection ids. -/
structure SSState where
  roomId : Option String
  peerConnection : Option PeerConn
  isSharing : Bool
  isRemoteSharing : Bool
  sharingWithUserId : Option String
  viewingFromUserId : Option String
  localStream : Option Nat
  remoteStream : Option Nat
  error : Option String
  closedPcs : List Nat
  nextPcId : Nat
deriving DecidableEq, Repr

/-- Initial hook state. -/
def ssInit : SSState :=
  { roomId := none, peerConnection := none, isSharing := false,
    isRemoteSharing := false, sharingWithUserId := none,
    viewingFromUserId := none, localStream := none, remoteStream := none,
    error := none, closedPcs := [], nextPcId := 0 }

/-- Allocate a fresh peer connection for the hook
(`createPeerConnection`). -/
def ssNewPc (s : SSState) : PeerConn × SSState :=
  let pc : PeerConn :=
    { id := s.nextPcId, remoteDescription := none, localDescription := none,
      appliedCandidates := [], tracks := [] }
  (pc, { s with nextPcId := s.nextPcId + 1 })

/-- The room id built by `useScreenShare.startSharing`
(lines 346-348). -/
def ssMkRoomId (uid : String) (target : Option String) (now : Nat) : String :=
  match target with
  | some t => "room-" ++ uid ++ "-to-" ++ t ++ "-" ++ toString now
  | none => "room-" ++ uid ++ "-" ++ toString now

/-- `useScreenShare.stopSharing` (lines 423-456): stop the local stream,
close the peer connection, reset every state variable, and — only when the
socket is connected and a room is set — emit `stop-sharing` and clear the
room ref. -/
def ssStopSharing (connected : Bool) (s : SSState) : SSState × List OutMsg :=
  let closed := match s.peerConnection with
    | some pc => s.closedPcs ++ [pc.id]
    | none => s.closedPcs
  let base := { s with localStream := none, peerConnection := none,
                       isSharing := false, isRemoteSharing := false,
                       sharingWithUserId := none, viewingFromUserId := none,
                       remoteStream := none, error := none, closedPcs := closed }
  match connected, s.roomId with
  | true, some r => ({ base with roomId := none }, [OutMsg.stopSharing r])
  | _, _ => (base, [])

/-- `useScreenShare.startSharing` (lines 336-421).  `connected` is
`socketManager.isConnected()`; `cap` is the capture environment
(`getScreenStream`).  A failed guard or capture runs the catch path
(`handleError` and/or `stopSharing`).  On success: set the room, emit
`join-room`, store the stream, close any previous peer connection, create a
fresh one, add the tracks, create and set the local offer, then either
notify the target with `share-request` or broadcast the offer. -/
def ssStartSharing (connected : Bool) (cap : Option Nat) (s : SSState)
    (uid : String) (target : Option String) (now : Nat) : SSState × List OutMsg :=
  if connected = false then
    let s1 := { s with error := some "Signaling server not connected. Please wait and try again." }
    ssStopSharing connected s1
  else
    let r := ssMkRoomId uid target now
    let s1 := { s with roomId := some r }
    match cap with
    | none =>
      let (s2, out) := ssStopSharing connected s1
      (s2, OutMsg.joinRoom r :: out)
    | some streamId =>
      let s2 := { s1 with localStream := some streamId, isSharing := true,
                          sharingWithUserId := target, error := none }
      let s3 := match s2.peerConnection with
        | some pc => { s2 with closedPcs := s2.closedPcs ++ [pc.id] }
        | none => s2
      let (pc, s4) := ssNewPc s3
      let off := createOfferSdp r
      let pc1 := { pc with tracks := [streamId], localDescription := some off }
      let s5 := { s4 with peerConnection := some pc1 }
      match target with
      | some t => (s5, [OutMsg.joinRoom r, OutMsg.shareRequest t r uid])
      | none => (s5, [OutMsg.joinRoom r, OutMsg.offerBroadcast r off])

/-- `useScreenShare` inbound `answer` handler (lines 231-246): ignore
answers for a different room, otherwise set the remote description on the
current peer connection when one exists. -/
def ssHandleAnswer (s : SSState) (d : AnswerMsg) : SSState × List OutMsg :=
  if some d.roomId ≠ s.roomId then (s, [])
  else
    match s.peerConnection with
    | none => (s, [])
    | some pc =>
      let pc1 := { pc with remoteDescription := some d.answer }
      ({ s with peerConnection := some pc1 }, [])

/-- `useScreenShare` inbound `ice-candidate` handler (lines 248-263): ignore
candidates for a different room; apply only when a peer connection with a
remote description exists (the hook does not queue candidates). -/
def ssHandleIceCandidate (s : SSState) (d : IceMsg) : SSState × List OutMsg :=
  if some d.roomId ≠ s.roomId then (s, [])
  else
    match s.peerConnection with
    | none => (s, [])
    | some pc =>
      match pc.remoteDescription with
      | none => (s, [])
      | some _ =>
        let pc1 := { pc with appliedCandidates := pc.appliedCandidates ++ [d.candidate] }
        ({ s with peerConnection := some pc1 }, [])

/-- Model of a `socket.io` client socket held by `SignalingSocketManager`:
an allocation identity and the connected flag. -/
structure Sock where
  id : Nat
  connected : Bool
deriving DecidableEq, Repr

/-- State of the `SignalingSocketManager` singleton
(`src/src/utils/signalingSocketManager.ts`): the socket, the current user,
the `isConnecting` flag, the event-handler registry (an association list
from event name to the ordered set of handler ids, mirroring
`Map<string, Set<Function>>`), the log of disconnected socket ids, and the
socket allocation counter. -/
structure MgrState where
  socket : Option Sock
  currentUserId : Option String
  isConnecting : Bool
  handlers : List (String × List Nat)
  disconnectedIds : List Nat
  nextSocketId : Nat
deriving DecidableEq, Repr

/-- Fresh manager state. -/
def mgrInit : MgrState :=
  { socket := none, currentUserId := none, isConnecting := false,
    handlers := [], disconnectedIds := [], nextSocketId := 0 }

/-- Whether the held socket reports connected (`this.socket.connected`,
false when there is no socket). -/
def sockConnected (o : Option Sock) : Bool :=
  match o with
  | some k => k.connected
  | none => false

/-- `SignalingSocketManager.disconnect` (lines 221-230): disconnect and drop
the socket, clear the user, the connecting flag and the handler registry. -/
def mgrDisconnect (s : MgrState) : MgrState :=
  let dis := match s.socket with
    | some k => s.disconnectedIds ++ [k.id]
    | none => s.disconnectedIds
  { s with socket := none, currentUserId := none, isConnecting := false,
           handlers := [], disconnectedIds := dis }

/-- `SignalingSocketManager.connect` (lines 23-109), as the synchronous
state transition up to and including the `io(...)` call (the socket starts
unconnected; the connect event arrives later).  Guards in source order:
return the existing socket when connected under the same user; disconnect
when the current user differs; the third guard (disconnect when connected
under the same user) is dead code because the first guard already returned;
return the in-flight socket while `isConnecting`; otherwise allocate a new
socket. -/
def mgrConnect (s : MgrState) (uid : String) : MgrState × Option Sock :=
  if sockConnected s.socket = true ∧ s.currentUserId = some uid then
    (s, s.socket)
  else
    let s1 := if s.socket ≠ none ∧ s.currentUserId ≠ some uid then mgrDisconnect s else s
    let s2 :=
      if s1.socket ≠ none ∧ s1.currentUserId = some uid ∧ sockConnected s1.socket = true then
        mgrDisconnect s1
      else s1
    if s2.isConnecting then (s2, s2.socket)
    else
      let k : Sock := { id := s2.nextSocketId, connected := false }
      ({ s2 with isConnecting := true, currentUserId := some uid,
                 socket := some k, nextSocketId := s2.nextSocketId + 1 }, some k)

/-- The `connect` socket event handler installed by `connect` (lines 62-74):
the socket is now connected, the connecting flag is cleared, and the
REGISTER announcement for the captured user is the only message emitted. -/
def onConnectEvt (uid : String) (s : MgrState) : MgrState × List OutMsg :=
  ({ s with isConnecting := false,
            socket := s.socket.map (fun k => { k with connected := true }) },
   [OutMsg.register uid])

/-- The `connect_error` handler (lines 82-85): clear the connecting flag. -/
def onConnectErrorEvt (s : MgrState) : MgrState × List OutMsg :=
  ({ s with isConnecting := false }, [])

/-- The `disconnect` handler (lines 87-91): clear the connecting flag; the
socket object is kept (reconnection handles it) but is no longer
connected. -/
def onDisconnectEvt (s : MgrState) : MgrState × List OutMsg :=
  ({ s with isConnecting := false,
            socket := s.socket.map (fun k => { k with connected := false }) },
   [])

/-- The `reconnect` handler (lines 93-103): re-announce the captured user,
emitting REGISTER again. -/
def onReconnectEvt (uid : String) (s : MgrState) : MgrState × List OutMsg :=
  ({ s with socket := s.socket.map (fun k => { k with connected := true }) },
   [OutMsg.register uid])

/-- Handlers registered for an event name (`this.eventHandlers.get(name)`,
the empty set when absent). -/
def handlersFor (ev : String) : List (String × List Nat) → List Nat
  | [] => []
  | (e, l) :: rest => if e = ev then l else handlersFor ev rest

/-- `SignalingSocketManager.addEventListener` (lines 175-181): get or create
the set for the event name and add the handler; `Set.add` keeps insertion
order and ignores a handler that is already present. -/
def addEventListener (hs : List (String × List Nat)) (ev : String) (h : Nat) :
    List (String × List Nat) :=
  match hs with
  | [] => [(ev, [h])]
  | (e, l) :: rest =>
    if e = ev then (e, if h ∈ l then l else l ++ [h]) :: rest
    else (e, l) :: addEventListener rest ev h

/-- `SignalingSocketManager.removeEventListener` (lines 184-193): delete the
handler from the set for the event name, and drop the map entry when the
set becomes empty. -/
def removeEventListener (hs : List (String × List Nat)) (ev : String) (h : Nat) :
    List (String × List Nat) :=
  match hs with
  | [] => []
  | (e, l) :: rest =>
    if e = ev then
      let l2 := l.erase h
      if l2 = [] then rest else (e, l2) :: rest
    else (e, l) :: removeEventListener rest ev h

/-- Run the registered handlers for one delivered event
(`setupEventForwarding`, lines 123-142): each handler is invoked inside a
try/catch, so an error thrown by one handler is logged and the remaining
handlers still run.  `run` is the environment giving each handler's
outcome; the result is the list of invoked handlers in order, paired with
the number of caught errors. -/
def runHandlers (run : Nat → Except String Unit) : List Nat → List Nat × Nat
  | [] => ([], 0)
  | h :: rest =>
    let tail := runHandlers run rest
    match run h with
    | Except.ok _ => (h :: tail.1, tail.2)
    | Except.error _ => (h :: tail.1, tail.2 + 1)

/-- Forward one delivered event to all handlers registered for its name. -/
def forwardEvent (run : Nat → Except String Unit) (hs : List (String × List Nat))
    (ev : String) : List Nat × Nat :=
  runHandlers run (handlersFor ev hs)

/-- Well-formedness of the handler registry as maintained by the JS
`Map`/`Set` pair: event names are unique keys and each handler set has no
duplicates. -/
def WFHandlers (hs : List (String × List Nat)) : Prop :=
  (hs.map Prod.fst).Nodup ∧ ∀ p ∈ hs, (p.2).Nodup

instance : DecidablePred WFHandlers := fun hs =>
  inferInstanceAs (Decidable ((hs.map Prod.fst).Nodup ∧ ∀ p ∈ hs, (p.2).Nodup))

/-- `WebRTCService.MAX_RECONNECTION_ATTEMPTS`
(`src/src/services/WebRTCService.ts` line 11). -/
def WMAX : Nat := 5

/-- Reconnection-relevant state of `WebRTCService`. -/
structure WRState where
  reconnectionAttempts : Nat
  isReconnecting : Bool
  hasStream : Bool
  hasRoom : Bool
deriving DecidableEq, Repr

/-- Initial service state. -/
def wInit : WRState :=
  { reconnectionAttempts := 0, isReconnecting := false,
    hasStream := false, hasRoom := false }

/-- `WebRTCService.cleanup` (lines 246-263): reset the reconnection flag and
counter and drop the stream. -/
def wCleanup (s : WRState) : WRState :=
  { s with isReconnecting := false, reconnectionAttempts := 0, hasStream := false }

/-- `WebRTCService.handleReconnectionFailure` (lines 158-163): reset the
flag and counter, then `handleShareStopped` runs `cleanup`. -/
def wHandleReconnectionFailure (s : WRState) : WRState :=
  wCleanup { s with isReconnecting := false, reconnectionAttempts := 0 }

/-- `WebRTCService.attemptReconnection` (lines 141-156): declare failure at
the cap, otherwise increment the counter and retry the connection (a retry
scheduled by the catch arrives later as a separate event). -/
def wAttemptReconnection (s : WRState) : WRState :=
  if s.reconnectionAttempts ≥ WMAX then wHandleReconnectionFailure s
  else { s with reconnectionAttempts := s.reconnectionAttempts + 1 }

/-- `WebRTCService.handleConnectionError` (lines 101-109). -/
def wHandleConnectionError (s : WRState) : WRState :=
  if s.reconnectionAttempts < WMAX then
    wAttemptReconnection { s with isReconnecting := true }
  else wHandleReconnectionFailure s

/-- Discrete events driving the `WebRTCService` reconnection logic.  The
`socketConnectOk`/`socketConnectFail` pair models `handleReconnection`
(lines 111-122) with the two outcomes of `restartConnection`. -/
inductive WEvent where
  | connectError
  | iceDisconnected
  | iceFailed
  | iceConnected
  | retryTimer
  | socketDisconnect
  | socketConnectOk
  | socketConnectFail
  | shareStopped
  | startShare
deriving DecidableEq, Repr

/-- One reaction of `WebRTCService` to a discrete event (lines 22-99 wire
the socket events, lines 206-223 the ICE connection states). -/
def wStep (s : WRState) : WEvent → WRState
  | WEvent.connectError => wHandleConnectionError s
  | WEvent.iceDisconnected => wHandleConnectionError s
  | WEvent.iceFailed => wHandleConnectionError s
  | WEvent.iceConnected => { s with isReconnecting := false, reconnectionAttempts := 0 }
  | WEvent.retryTimer => wAttemptReconnection s
  | WEvent.socketDisconnect =>
      if s.hasStream then wAttemptReconnection { s with isReconnecting := true } else s
  | WEvent.socketConnectOk =>
      if s.isReconnecting ∧ s.hasRoom then { s with reconnectionAttempts := 0 } else s
  | WEvent.socketConnectFail =>
      if s.isReconnecting ∧ s.hasRoom then
        wHandleReconnectionFailure { s with reconnectionAttempts := 0 }
      else s
  | WEvent.shareStopped => wCleanup s
  | WEvent.startShare => { wCleanup s with hasStream := true, hasRoom := true }

/-- States of `WebRTCService` reachable from the initial state. -/
inductive WReachable : WRState → Prop
  | init : WReachable wInit
  | step (s : WRState) (e : WEvent) : WReachable s → WReachable (wStep s e)

/-- `CallService.MAX_RECONNECT_ATTEMPTS`
(`src/src/services/callService.ts` line 17). -/
def CMAX : Nat := 3

/-- Reconnection-relevant state of `CallService`. -/
structure CSState where
  reconnectAttempts : Nat
  isReconnecting : Bool
  inCall : Bool
deriving DecidableEq, Repr

/-- Initial call-service state. -/
def csInit : CSState :=
  { reconnectAttempts := 0, isReconnecting := false, inCall := false }

/-- `CallService.endCall` (lines 282-299): the call id is cleared (the
counters are left as they are). -/
def csEndCall (s : CSState) : CSState := { s with inCall := false }

/-- `CallService.attemptReconnect` (lines 56-89): emit the failure and end
the call when the cap is reached or no call is active; otherwise increment
the counter and renegotiate (a retry scheduled by the catch arrives later
as a separate event). -/
def csAttemptReconnect (s : CSState) : CSState :=
  if s.reconnectAttempts ≥ CMAX ∨ s.inCall = false then csEndCall s
  else { s with reconnectAttempts := s.reconnectAttempts + 1, isReconnecting := true }

/-- Discrete events driving the `CallService` reconnection logic. -/
inductive CEvent where
  | connConnected
  | connFailed
  | iceTimeout
  | iceFailed
  | retryTimer
  | startCall
  | hangup
deriving DecidableEq, Repr

/-- One reaction of `CallService` to a discrete event
(`initializePeerConnection` lines 91-149 wires the state-change handlers;
`startCall`/`handleIncomingCall` reset the counters). -/
def csStep (s : CSState) : CEvent → CSState
  | CEvent.connConnected => { s with isReconnecting := false, reconnectAttempts := 0 }
  | CEvent.connFailed => if s.isReconnecting = false then csAttemptReconnect s else s
  | CEvent.iceTimeout => csAttemptReconnect s
  | CEvent.iceFailed => if s.isReconnecting = false then csAttemptReconnect s else s
  | CEvent.retryTimer => csAttemptReconnect s
  | CEvent.startCall =>
      { s with inCall := true, reconnectAttempts := 0, isReconnecting := false }
  | CEvent.hangup => csEndCall s

/-- States of `CallService` reachable from the initial state. -/
inductive CSReachable : CSState → Prop
  | init : CSReachable csInit
  | step (s : CSState) (e : CEvent) : CSReachable s → CSReachable (csStep s e)

/-- Whether the manager currently holds a remote description
(`this.peerConnection && this.peerConnection.remoteDescription`). -/
def hasRemoteDesc (s : RAState) : Bool :=
  match s.peerConnection with
  | some pc => pc.remoteDescription.isSome
  | none => false

/-- The candidates applied so far on the current peer connection (empty when
there is none). -/
def appliedCandidatesOf (s : RAState) : List IceCand :=
  match s.peerConnection with
  | some pc => pc.appliedCandidates
  | none => []

/-- Concrete trace for the offerer side: the viewer starts remote access,
one ICE candidate arrives before the answer, then the answer arrives. -/
def c1Room : String := mkRoomId "alice" "bob" 7

/-- End state of the offerer-side trace: request sent, candidate queued,
answer processed. -/
def c1State : RAState :=
  let s0 := { raInit with currentUserId := some "alice" }
  let s1 := match startRemoteAccess s0 "bob" 7 with
    | Except.ok p => p.1
    | Except.error _ => s0
  let s2 := (handleRemoteAccessIceCandidate s1 { roomId := c1Room, candidate := "cand0" }).1
  (handleRemoteAccessAnswer s2 { roomId := c1Room, answer := "ans" }).1

/-- Concrete witness state for the candidate-queue theorem: an open session
whose peer connection has no remote description and one queued candidate. -/
def c1wState : RAState :=
  { raInit with currentUserId := some "alice", roomId := some "r",
                peerConnection := some { id := 0, remoteDescription := none,
                                         localDescription := none,
                                         appliedCandidates := [], tracks := [] },
                queuedIceCandidates := ["q1"] }

/-- First call of the duplicate-start trace. -/
def c2Step1 : RAState × List OutMsg :=
  match startRemoteAccess { raInit with currentUserId := some "alice" } "bob" 1 with
  | Except.ok p => p
  | Except.error _ => (raInit, [])

/-- Second call of the duplicate-start trace, issued for the same pair. -/
def c2Step2 : RAState × List OutMsg :=
  match startRemoteAccess c2Step1.1 "bob" 2 with
  | Except.ok p => p
  | Except.error _ => (raInit, [])

/-- Room of the cancelled-session trace. -/
def c6Room : String := mkRoomId "alice" "bob" 3

/-- State after the cancelled-session trace: start, apply the offer, then
stop the session. -/
def c6Stopped : RAState :=
  let s0 := { raInit with currentUserId := some "alice" }
  let s1 := match startRemoteAccess s0 "bob" 3 with
    | Except.ok p => p.1
    | Except.error _ => s0
  let s2 := (handleRemoteAccessOffer s1
    { roomId := c6Room, offer := "sdpO", targetUserId := "alice" }).1
  (stopRemoteAccess s2).1

/-- Redelivery of the already-applied offer after the session was stopped. -/
def c6Late : RAState × List OutMsg :=
  handleRemoteAccessOffer c6Stopped
    { roomId := c6Room, offer := "sdpO", targetUserId := "alice" }

/-- Concrete manager state with a connect in flight. -/
def c7State : MgrState :=
  { socket := some { id := 0, connected := false }, currentUserId := some "alice",
    isConnecting := true, handlers := [], disconnectedIds := [], nextSocketId := 1 }

/-- Concrete state for the offer-dedup witness: the offer for room r1 was
already applied. -/
def c3State : RAState :=
  { raInit with currentUserId := some "alice", roomId := some "r1",
                processedOffers := ["r1-alice"] }

/-- The redelivered offer of the dedup witness. -/
def c3Msg : OfferMsg := { roomId := "r1", offer := "o", targetUserId := "alice" }

/-- Concrete state for the mismatch witnesses: a session on room rA. -/
def c5State : RAState := { raInit with currentUserId := some "alice", roomId := some "rA" }

/-- Concrete hook state for the mismatch witnesses. -/
def c5SS : SSState := { ssInit with roomId := some "rA" }

/-- Concrete manager state: connected under user u. -/
def c8Connected : MgrState :=
  { socket := some { id := 4, connected := true }, currentUserId := some "u",
    isConnecting := false, handlers := [], disconnectedIds := [], nextSocketId := 5 }

/-- Concrete manager state: connected under a different user than the one
about to connect. -/
def c8Other : MgrState :=
  { socket := some { id := 4, connected := true }, currentUserId := some "v",
    isConnecting := false, handlers := [], disconnectedIds := [], nextSocketId := 5 }

/-- Concrete manager state: a connect for user u still in flight. -/
def c8InFlight : MgrState :=
  { socket := some { id := 4, connected := false }, currentUserId := some "u",
    isConnecting := true, handlers := [], disconnectedIds := [], nextSocketId := 5 }

/-- Concrete hook state for the force-close witness: an old peer connection
is present. -/
def c2SS : SSState :=
  { ssInit with peerConnection := some { id := 9, remoteDescription := none,
                                         localDescription := none,
                                         appliedCandidates := [], tracks := [] },
                nextPcId := 10 }

/-- Concrete manager state for the reuse witness: user set and a live peer
connection present. -/
def c2RA : RAState :=
  { raInit with currentUserId := some "alice",
                peerConnection := some { id := 0, remoteDescription := none,
                                         localDescription := none,
                                         appliedCandidates := [], tracks := [] },
                nextPcId := 1 }

/-- Concrete post-stop state for the stale-message witness. -/
def c6wState : RAState := { raInit with currentUserId := some "alice" }

/-- Candidate arriving for the open witness session. -/
def c1wIce : IceMsg := { roomId := "r", candidate := "c2" }

/-- Offer arriving for the open witness session. -/
def c1wOffer : OfferMsg := { roomId := "r", offer := "o", targetUserId := "alice" }

/-- Answer arriving for the open witness session. -/
def c1wAns : AnswerMsg := { roomId := "r", answer := "x" }

/-- Answer bearing a room different from the witness session's room. -/
def c5Ans : AnswerMsg := { roomId := "rB", answer := "x" }

/-- Candidate bearing a room different from the witness session's room. -/
def c5Ice : IceMsg := { roomId := "rB", candidate := "c" }

/-- Offer bearing a room different from the witness session's room. -/
def c5Off : OfferMsg := { roomId := "rB", offer := "o", targetUserId := "alice" }

/-- Late answer for the post-stop witness. -/
def c6Ans : AnswerMsg := { roomId := "rZ", answer := "x" }

/-- Late candidate for the post-stop witness. -/
def c6Ice : IceMsg := { roomId := "rZ", candidate := "c" }

/-- Late offer for the post-stop witness. -/
def c6Off : OfferMsg := { roomId := "rZ", offer := "o", targetUserId := "alice" }

/-- Request addressed to a different user than the witness manager's. -/
def c10Req : ReqMsg := { fromUserId := "eve", roomId := "rX", targetUserId := "bob" }

/-- Offer addressed to a different user than the witness manager's. -/
def c10Off : OfferMsg := { roomId := "rX", offer := "o", targetUserId := "bob" }

/-- Debug message addressed to a different user than the witness manager's. -/
def c10Dbg : DebugMsg := { toUserId := "bob", message := "m" }

/-- Manager state owned by user alice for the foreign-target witness. -/
def c10State : RAState := { raInit with currentUserId := some "alice" }

/-! ### Helper lemmas -/

/-- Every registered handler is invoked, regardless of which handlers
throw: the per-handler try/catch in `setupEventForwarding` isolates
failures. -/
theorem runHandlers_fst (run : Nat → Except String Unit) (l : List Nat) :
    (runHandlers run l).1 = l := by
  induction l with
  | nil => rfl
  | cons h rest ih =>
    unfold runHandlers
    cases hr : run h <;> simp [hr, ih]

/-- An event name absent from the registry has no handlers. -/
theorem handlersFor_not_mem (ev : String) (hs : List (String × List Nat))
    (h : ev ∉ hs.map Prod.fst) : handlersFor ev hs = [] := by
  induction hs with
  | nil => rfl
  | cons p rest ih =>
    obtain ⟨e, l⟩ := p
    simp only [List.map_cons, List.mem_cons, not_or] at h
    have he : e ≠ ev := fun hh => h.1 hh.symm
    simp [handlersFor, he, ih h.2]

/-- Effect of `addEventListener` on the handler set of the added event. -/
theorem handlersFor_add (hs : List (String × List Nat)) (ev : String) (h : Nat) :
    handlersFor ev (addEventListener hs ev h)
      = if h ∈ handlersFor ev hs then handlersFor ev hs
        else handlersFor ev hs ++ [h] := by
  induction hs with
  | nil => simp [addEventListener, handlersFor]
  | cons p rest ih =>
    obtain ⟨e, l⟩ := p
    by_cases he : e = ev
    · subst he
      by_cases hm : h ∈ l <;> simp [addEventListener, handlersFor, hm]
    · simp [addEventListener, handlersFor, he, ih]

/-- Registering an already-registered handler changes nothing
(`Set.add` semantics). -/
theorem addEventListener_idem (hs : List (String × List Nat)) (ev : String) (h : Nat) :
    addEventListener (addEventListener hs ev h) ev h = addEventListener hs ev h := by
  induction hs with
  | nil => simp [addEventListener]
  | cons p rest ih =>
    obtain ⟨e, l⟩ := p
    by_cases he : e = ev
    · subst he
      by_cases hm : h ∈ l <;> simp [addEventListener, hm]
    · simp [addEventListener, he, ih]

/-- The tail of a well-formed registry is well formed. -/
theorem wfHandlers_tail {p : String × List Nat} {rest : List (String × List Nat)}
    (wf : WFHandlers (p :: rest)) : WFHandlers rest :=
  ⟨(List.nodup_cons.mp wf.1).2, fun q hq => wf.2 q (List.mem_cons_of_mem _ hq)⟩

/-- In a well-formed registry every handler set is duplicate free. -/
theorem handlersFor_nodup (ev : String) (hs : List (String × List Nat))
    (wf : WFHandlers hs) : (handlersFor ev hs).Nodup := by
  induction hs with
  | nil => simp [handlersFor]
  | cons p rest ih =>
    obtain ⟨e, l⟩ := p
    by_cases he : e = ev
    · simpa [handlersFor, he] using wf.2 (e, l) (by simp)
    · simpa [handlersFor, he] using ih (wfHandlers_tail wf)

/-- Adding a handler preserves duplicate freeness of the touched set. -/
theorem handlersFor_add_nodup (hs : List (String × List Nat)) (ev : String) (h : Nat)
    (wf : WFHandlers hs) :
    (handlersFor ev (addEventListener hs ev h)).Nodup := by
  rw [handlersFor_add]
  by_cases hm : h ∈ handlersFor ev hs
  · simpa [hm] using handlersFor_nodup ev hs wf
  · simp only [hm, if_false]
    rw [List.nodup_append]
    exact ⟨handlersFor_nodup ev hs wf, List.nodup_singleton h,
      fun a ha hb => by simp at hb; subst hb; exact hm ha⟩

/-- Keys of the registry after `addEventListener`. -/
theorem map_fst_add (hs : List (String × List Nat)) (ev : String) (h : Nat) :
    (addEventListener hs ev h).map Prod.fst
      = if ev ∈ hs.map Prod.fst then hs.map Prod.fst
        else hs.map Prod.fst ++ [ev] := by
  induction hs with
  | nil => simp [addEventListener]
  | cons p rest ih =>
    obtain ⟨e, l⟩ := p
    by_cases he : e = ev
    · subst he
      by_cases hm : h ∈ l <;> simp [addEventListener, hm]
    · have hne : ev ≠ e := fun hh => he hh.symm
      by_cases hm : ev ∈ rest.map Prod.fst <;>
        simp [addEventListener, he, ih, hne, hm]

/-- Adding a handler preserves key uniqueness. -/
theorem map_fst_add_nodup (hs : List (String × List Nat)) (ev : String) (h : Nat)
    (wk : (hs.map Prod.fst).Nodup) :
    ((addEventListener hs ev h).map Prod.fst).Nodup := by
  rw [map_fst_add]
  by_cases hm : ev ∈ hs.map Prod.fst
  · simpa [hm] using wk
  · simp only [hm, if_false]
    rw [List.nodup_append]
    exact ⟨wk, List.nodup_singleton ev,
      fun a ha hb => by simp at hb; subst hb; exact hm ha⟩

/-- Effect of `removeEventListener` on the handler set of the removed
event, given unique keys. -/
theorem handlersFor_remove (hs : List (String × List Nat)) (ev : String) (h : Nat)
    (wk : (hs.map Prod.fst).Nodup) :
    handlersFor ev (removeEventListener hs ev h) = (handlersFor ev hs).erase h := by
  induction hs with
  | nil => simp [removeEventListener, handlersFor]
  | cons p rest ih =>
    obtain ⟨e, l⟩ := p
    by_cases he : e = ev
    · have hnm : ev ∉ rest.map Prod.fst := he ▸ (List.nodup_cons.mp wk).1
      by_cases h2 : l.erase h = []
      · simp [removeEventListener, handlersFor, he, h2,
          handlersFor_not_mem ev rest hnm]
      · simp [removeEventListener, handlersFor, he, h2]
    · have wk2 : (rest.map Prod.fst).Nodup := (List.nodup_cons.mp wk).2
      simp [removeEventListener, handlersFor, he, ih wk2]

/-- Result of one `attemptReconnection` never exceeds the cap. -/
theorem wAttempt_le (s : WRState) :
    (wAttemptReconnection s).reconnectionAttempts ≤ WMAX := by
  unfold wAttemptReconnection
  split
  · simp [wHandleReconnectionFailure, wCleanup]
  · next hge =>
    show s.reconnectionAttempts + 1 ≤ WMAX
    simp only [WMAX] at hge ⊢
    omega

/-- Result of one `handleConnectionError` never exceeds the cap. -/
theorem wHCE_le (s : WRState) :
    (wHandleConnectionError s).reconnectionAttempts ≤ WMAX := by
  unfold wHandleConnectionError
  split
  · exact wAttempt_le _
  · simp [wHandleReconnectionFailure, wCleanup]

/-- One `WebRTCService` step preserves the counter bound. -/
theorem wStep_le (s : WRState) (e : WEvent)
    (h : s.reconnectionAttempts ≤ WMAX) :
    (wStep s e).reconnectionAttempts ≤ WMAX := by
  cases e with
  | connectError => exact wHCE_le s
  | iceDisconnected => exact wHCE_le s
  | iceFailed => exact wHCE_le s
  | iceConnected => simp [wStep]
  | retryTimer => exact wAttempt_le s
  | socketDisconnect =>
    simp only [wStep]
    split
    · exact wAttempt_le _
    · exact h
  | socketConnectOk =>
    simp only [wStep]
    split
    · simp
    · exact h
  | socketConnectFail =>
    simp only [wStep]
    split
    · simp [wHandleReconnectionFailure, wCleanup]
    · exact h
  | shareStopped => simp [wStep, wCleanup]
  | startShare => simp [wStep, wCleanup]

/-- Every reachable `WebRTCService` state respects the counter bound. -/
theorem wReachable_le (s : WRState) (h : WReachable s) :
    s.reconnectionAttempts ≤ WMAX := by
  induction h with
  | init => simp [wInit]
  | step s e _ ih => exact wStep_le s e ih

/-- Result of one `CallService.attemptReconnect` preserves the cap. -/
theorem csAttempt_le (s : CSState) (h : s.reconnectAttempts ≤ CMAX) :
    (csAttemptReconnect s).reconnectAttempts ≤ CMAX := by
  unfold csAttemptReconnect
  split
  · simpa [csEndCall] using h
  · next hcond =>
    rcases not_or.mp hcond with ⟨h1, _⟩
    show s.reconnectAttempts + 1 ≤ CMAX
    simp only [CMAX] at h1 ⊢
    omega

/-- One `CallService` step preserves the counter bound. -/
theorem csStep_le (s : CSState) (e : CEvent)
    (h : s.reconnectAttempts ≤ CMAX) :
    (csStep s e).reconnectAttempts ≤ CMAX := by
  cases e with
  | connConnected => simp [csStep]
  | connFailed =>
    simp only [csStep]
    split
    · exact csAttempt_le s h
    · exact h
  | iceTimeout => exact csAttempt_le s h
  | iceFailed =>
    simp only [csStep]
    split
    · exact csAttempt_le s h
    · exact h
  | retryTimer => exact csAttempt_le s h
  | startCall => simp [csStep]
  | hangup => simpa [csStep, csEndCall] using h

/-- Every reachable `CallService` state respects the counter bound. -/
theorem csReachable_le (s : CSState) (h : CSReachable s) :
    s.reconnectAttempts ≤ CMAX := by
  induction h with
  | init => simp [csInit]
  | step s e _ ih => exact csStep_le s e ih

/-! ### Claim theorems -/

/-- C3: re-delivering an offer whose `(roomId, targetIdentity)` key was
already recorded in `processedOffers` leaves the manager state unchanged
and emits nothing — in particular no second answer is sent. -/
theorem offer_redelivery_is_noop (s : RAState) (d : OfferMsg)
    (h : offerKey d ∈ s.processedOffers) :
    handleRemoteAccessOffer s d = (s, []) := by
  unfold handleRemoteAccessOffer
  split_ifs <;> simp_all

/-- Witness for the offer-dedup theorem at a concrete state that has already
applied the offer for room r1. -/
theorem offer_redelivery_is_noop_witness :
    offerKey c3Msg ∈ c3State.processedOffers
    ∧ handleRemoteAccessOffer c3State c3Msg = (c3State, []) :=
  ⟨by decide, offer_redelivery_is_noop c3State c3Msg (by decide)⟩

/-- C5: an inbound answer, candidate or offer whose room does not match the
session's current room is dropped with no state change and no outbound
message, in both the `RemoteAccessStateManager` and the `useScreenShare`
handlers; the handlers are total functions, so the drop can never surface
an error to the routing caller. -/
theorem room_mismatch_dropped (s : RAState) (t : SSState)
    (a : AnswerMsg) (i : IceMsg) (o : OfferMsg) (r : String)
    (ha : some a.roomId ≠ s.roomId) (hi : some i.roomId ≠ s.roomId)
    (hr : s.roomId = some r) (hro : r ≠ o.roomId)
    (ta : some a.roomId ≠ t.roomId) (ti : some i.roomId ≠ t.roomId) :
    handleRemoteAccessAnswer s a = (s, [])
    ∧ handleRemoteAccessIceCandidate s i = (s, [])
    ∧ handleRemoteAccessOffer s o = (s, [])
    ∧ ssHandleAnswer t a = (t, [])
    ∧ ssHandleIceCandidate t i = (t, []) := by
  refine ⟨?_, ?_, ?_, ?_, ?_⟩
  · simp [handleRemoteAccessAnswer, ha]
  · simp [handleRemoteAccessIceCandidate, hi]
  · by_cases hu : s.currentUserId ≠ some o.targetUserId
    · simp [handleRemoteAccessOffer, hu]
    · have hg : s.roomId ≠ none ∧ s.roomId ≠ some o.roomId := by
        refine ⟨by simp [hr], ?_⟩
        rw [hr]
        simp [hro]
      simp [handleRemoteAccessOffer, hu, hg]
  · simp [ssHandleAnswer, ta]
  · simp [ssHandleIceCandidate, ti]

/-- Witness for the room-mismatch theorem: messages for room rB arrive at
sessions owning room rA. -/
theorem room_mismatch_dropped_witness :
    (some c5Ans.roomId ≠ c5State.roomId ∧ some c5Ice.roomId ≠ c5State.roomId
      ∧ c5State.roomId = some "rA" ∧ "rA" ≠ c5Off.roomId
      ∧ some c5Ans.roomId ≠ c5SS.roomId ∧ some c5Ice.roomId ≠ c5SS.roomId)
    ∧ (handleRemoteAccessAnswer c5State c5Ans = (c5State, [])
       ∧ handleRemoteAccessIceCandidate c5State c5Ice = (c5State, [])
       ∧ handleRemoteAccessOffer c5State c5Off = (c5State, [])
       ∧ ssHandleAnswer c5SS c5Ans = (c5SS, [])
       ∧ ssHandleIceCandidate c5SS c5Ice = (c5SS, [])) :=
  ⟨⟨by decide, by decide, rfl, by decide, by decide, by decide⟩,
   room_mismatch_dropped c5State c5SS c5Ans c5Ice c5Off "rA"
     (by decide) (by decide) rfl (by decide) (by decide) (by decide)⟩

/-- C10: an inbound remote-access request, offer or debug message whose
target identity differs from the manager's current user leaves the entire
manager state unchanged and produces no outbound message. -/
theorem foreign_target_ignored (s : RAState) (cap : Option Nat)
    (rq : ReqMsg) (d : OfferMsg) (dbg : DebugMsg)
    (h1 : s.currentUserId ≠ some rq.targetUserId)
    (h2 : s.currentUserId ≠ some d.targetUserId)
    (h3 : s.currentUserId ≠ some dbg.toUserId) :
    handleRemoteAccessRequest cap s rq = (s, [])
    ∧ handleRemoteAccessOffer s d = (s, [])
    ∧ handleRemoteAccessDebug s dbg = (s, []) := by
  refine ⟨?_, ?_, ?_⟩
  · simp [handleRemoteAccessRequest, h1]
  · simp [handleRemoteAccessOffer, h2]
  · simp [handleRemoteAccessDebug, h3]

/-- Witness for the foreign-target theorem: messages addressed to bob
arrive at alice's manager. -/
theorem foreign_target_ignored_witness :
    (c10State.currentUserId ≠ some c10Req.targetUserId
      ∧ c10State.currentUserId ≠ some c10Off.targetUserId
      ∧ c10State.currentUserId ≠ some c10Dbg.toUserId)
    ∧ (handleRemoteAccessRequest (some 1) c10State c10Req = (c10State, [])
       ∧ handleRemoteAccessOffer c10State c10Off = (c10State, [])
       ∧ handleRemoteAccessDebug c10State c10Dbg = (c10State, [])) :=
  ⟨⟨by decide, by decide, by decide⟩,
   foreign_target_ignored c10State (some 1) c10Req c10Off c10Dbg
     (by decide) (by decide) (by decide)⟩

/-- C1 counterexample: on the offerer side a candidate queued before the
answer is never applied.  In the concrete trace the request is sent, one
candidate arrives and is queued, then the answer is processed — the remote
description is set but the queue still holds the candidate and nothing was
applied, contradicting the claim that processing the ANSWER flushes the
queue and empties it. -/
theorem answer_no_flush_counterexample :
    c1State.queuedIceCandidates = ["cand0"]
    ∧ c1State.peerConnection.map PeerConn.remoteDescription = some (some "ans")
    ∧ appliedCandidatesOf c1State = [] := by
  refine ⟨by decide, by decide, by decide⟩

/-- C1 (amended): a candidate arriving for the current room while no remote
description is set is appended to the queue (in arrival order, applying
nothing and emitting nothing); processing an accepted OFFER applies the
whole queue once, in order, after the old applied candidates and empties
the queue; processing an ANSWER never touches the queue. -/
theorem candidate_queue_discipline (s : RAState) (i : IceMsg) (d : OfferMsg) (a : AnswerMsg)
    (hroom : s.roomId = some i.roomId)
    (hnodesc : hasRemoteDesc s = false)
    (htarget : s.currentUserId = some d.targetUserId)
    (hdroom : s.roomId = none ∨ s.roomId = some d.roomId)
    (hnew : offerKey d ∉ s.processedOffers) :
    (handleRemoteAccessIceCandidate s i).1.queuedIceCandidates
        = s.queuedIceCandidates ++ [i.candidate]
    ∧ (handleRemoteAccessIceCandidate s i).1.peerConnection = s.peerConnection
    ∧ (handleRemoteAccessIceCandidate s i).2 = []
    ∧ appliedCandidatesOf (handleRemoteAccessOffer s d).1
        = appliedCandidatesOf s ++ s.queuedIceCandidates
    ∧ (handleRemoteAccessOffer s d).1.queuedIceCandidates = []
    ∧ (handleRemoteAccessAnswer s a).1.queuedIceCandidates = s.queuedIceCandidates := by
  have hg1 : ¬ (some i.roomId ≠ s.roomId) := by simp [hroom]
  have hg2 : ¬ (s.currentUserId ≠ some d.targetUserId) := by simp [htarget]
  have hg3 : ¬ (s.roomId ≠ none ∧ s.roomId ≠ some d.roomId) := by
    rcases hdroom with h | h <;> simp [h]
  refine ⟨?_, ?_, ?_, ?_, ?_, ?_⟩
  · cases hpc : s.peerConnection with
    | none => simp [handleRemoteAccessIceCandidate, hg1, hpc]
    | some pc =>
      cases hrd : pc.remoteDescription with
      | none => simp [handleRemoteAccessIceCandidate, hg1, hpc, hrd]
      | some v => simp [hasRemoteDesc, hpc, hrd] at hnodesc
  · cases hpc : s.peerConnection with
    | none => simp [handleRemoteAccessIceCandidate, hg1, hpc]
    | some pc =>
      cases hrd : pc.remoteDescription with
      | none => simp [handleRemoteAccessIceCandidate, hg1, hpc, hrd]
      | some v => simp [hasRemoteDesc, hpc, hrd] at hnodesc
  · cases hpc : s.peerConnection with
    | none => simp [handleRemoteAccessIceCandidate, hg1, hpc]
    | some pc =>
      cases hrd : pc.remoteDescription with
      | none => simp [handleRemoteAccessIceCandidate, hg1, hpc, hrd]
      | some v => simp [hasRemoteDesc, hpc, hrd] at hnodesc
  · cases hpc : s.peerConnection with
    | none =>
      simp [handleRemoteAccessOffer, hg2, hg3, hnew, ensurePeerConnection,
        appliedCandidatesOf, hpc]
    | some pc =>
      simp [handleRemoteAccessOffer, hg2, hg3, hnew, ensurePeerConnection,
        appliedCandidatesOf, hpc]
  · cases hpc : s.peerConnection with
    | none =>
      simp [handleRemoteAccessOffer, hg2, hg3, hnew, ensurePeerConnection, hpc]
    | some pc =>
      simp [handleRemoteAccessOffer, hg2, hg3, hnew, ensurePeerConnection, hpc]
  · by_cases hg : some a.roomId ≠ s.roomId
    · simp [handleRemoteAccessAnswer, hg]
    · cases hpc : s.peerConnection <;> simp [handleRemoteAccessAnswer, hg, hpc]

/-- Witness for the candidate-queue theorem at a concrete open session. -/
theorem candidate_queue_discipline_witness :
    (c1wState.roomId = some c1wIce.roomId
      ∧ hasRemoteDesc c1wState = false
      ∧ c1wState.currentUserId = some c1wOffer.targetUserId
      ∧ (c1wState.roomId = none ∨ c1wState.roomId = some c1wOffer.roomId)
      ∧ offerKey c1wOffer ∉ c1wState.processedOffers)
    ∧ ((handleRemoteAccessIceCandidate c1wState c1wIce).1.queuedIceCandidates
          = c1wState.queuedIceCandidates ++ [c1wIce.candidate]
       ∧ (handleRemoteAccessIceCandidate c1wState c1wIce).1.peerConnection
          = c1wState.peerConnection
       ∧ (handleRemoteAccessIceCandidate c1wState c1wIce).2 = []
       ∧ appliedCandidatesOf (handleRemoteAccessOffer c1wState c1wOffer).1
          = appliedCandidatesOf c1wState ++ c1wState.queuedIceCandidates
       ∧ (handleRemoteAccessOffer c1wState c1wOffer).1.queuedIceCandidates = []
       ∧ (handleRemoteAccessAnswer c1wState c1wAns).1.queuedIceCandidates
          = c1wState.queuedIceCandidates) :=
  ⟨⟨by decide, by decide, by decide, Or.inr (by decide), by decide⟩,
   candidate_queue_discipline c1wState c1wIce c1wOffer c1wAns
     (by decide) (by decide) (by decide) (Or.inr (by decide)) (by decide)⟩

/-- C6 counterexample: after `stopRemoteAccess` the room is cleared, yet a
redelivery of the very offer applied before the stop is accepted again —
the manager re-adopts the stale room and emits a fresh answer, because the
room guard is skipped when no room is set and the processed-offer set was
cleared by the stop.  This contradicts the claim that every late message
for a cancelled session is detected and discarded. -/
theorem stale_offer_reapplied_counterexample :
    c6Stopped.roomId = none
    ∧ c6Late.2 = [OutMsg.answer c6Room (createAnswerSdp "sdpO")]
    ∧ (c6Late.1).roomId = some c6Room := by
  refine ⟨by decide, by decide, by decide⟩

/-- C6 (amended): after a session is stopped the current room is `none`, so
late answers and candidates for the cancelled room are detected by the room
comparison and discarded without any effect; a late OFFER redelivery,
however, is not discarded — with no current room the room guard passes and
the stop has cleared the processed-offer set, so the offer is applied
afresh, the stale room is re-adopted and a new answer is emitted. -/
theorem stale_messages_after_stop (s : RAState) (a : AnswerMsg) (i : IceMsg) (d : OfferMsg)
    (hroom : s.roomId = none)
    (htarget : s.currentUserId = some d.targetUserId)
    (hnew : offerKey d ∉ s.processedOffers) :
    handleRemoteAccessAnswer s a = (s, [])
    ∧ handleRemoteAccessIceCandidate s i = (s, [])
    ∧ (handleRemoteAccessOffer s d).1.roomId = some d.roomId
    ∧ (handleRemoteAccessOffer s d).2
        = [OutMsg.answer d.roomId (createAnswerSdp d.offer)] := by
  have hg2 : ¬ (s.currentUserId ≠ some d.targetUserId) := by simp [htarget]
  have hg3 : ¬ (s.roomId ≠ none ∧ s.roomId ≠ some d.roomId) := by simp [hroom]
  refine ⟨?_, ?_, ?_, ?_⟩
  · simp [handleRemoteAccessAnswer, hroom]
  · simp [handleRemoteAccessIceCandidate, hroom]
  · cases hpc : s.peerConnection with
    | none =>
      simp [handleRemoteAccessOffer, hg2, hg3, hnew, ensurePeerConnection, hpc]
    | some pc =>
      simp [handleRemoteAccessOffer, hg2, hg3, hnew, ensurePeerConnection, hpc]
  · cases hpc : s.peerConnection with
    | none =>
      simp [handleRemoteAccessOffer, hg2, hg3, hnew, ensurePeerConnection, hpc]
    | some pc =>
      simp [handleRemoteAccessOffer, hg2, hg3, hnew, ensurePeerConnection, hpc]

/-- Witness for the post-stop theorem at a concrete freshly-stopped
manager. -/
theorem stale_messages_after_stop_witness :
    (c6wState.roomId = none
      ∧ c6wState.currentUserId = some c6Off.targetUserId
      ∧ offerKey c6Off ∉ c6wState.processedOffers)
    ∧ (handleRemoteAccessAnswer c6wState c6Ans = (c6wState, [])
       ∧ handleRemoteAccessIceCandidate c6wState c6Ice = (c6wState, [])
       ∧ (handleRemoteAccessOffer c6wState c6Off).1.roomId = some c6Off.roomId
       ∧ (handleRemoteAccessOffer c6wState c6Off).2
           = [OutMsg.answer c6Off.roomId (createAnswerSdp c6Off.offer)]) :=
  ⟨⟨by decide, by decide, by decide⟩,
   stale_messages_after_stop c6wState c6Ans c6Ice c6Off
     (by decide) (by decide) (by decide)⟩

/-- C2 counterexample: two `startRemoteAccess` calls for the same pair in a
row.  After the second call the peer connection is still the one created by
the first call (same identity 0), no peer connection was ever closed, and
the second call's output contains no stop/close message — the first session
is neither transitioned to a closed state nor is its direct-connection
handle released before the second is created, contradicting the claim. -/
theorem second_start_no_force_close_counterexample :
    c2Step1.1.peerConnection.map PeerConn.id = some 0
    ∧ c2Step2.1.peerConnection.map PeerConn.id = some 0
    ∧ c2Step2.1.closedPcs = []
    ∧ c2Step2.2 = [OutMsg.joinRoom (mkRoomId "alice" "bob" 2),
                   OutMsg.request "bob" (mkRoomId "alice" "bob" 2) "alice"] := by
  refine ⟨by decide, by decide, by decide, by decide⟩

/-- C2 (amended): the manager tracks at most one session at any instant (a
single `roomId` slot), and a second start replaces the previous room; but
`RemoteAccessStateManager.startRemoteAccess` reuses the existing peer
connection without closing it and emits only `join-room` and the request —
no force-close happens there.  `useScreenShare.startSharing`, by contrast,
does close the previous peer connection before creating a fresh one. -/
theorem second_start_behaviour (s : RAState) (uid target : String) (now : Nat)
    (pc : PeerConn) (t : SSState) (uid2 : String) (tgt2 : Option String) (now2 : Nat)
    (cap : Nat) (pc2 : PeerConn)
    (h1 : s.currentUserId = some uid) (h2 : s.peerConnection = some pc)
    (h3 : t.peerConnection = some pc2) :
    startRemoteAccess s target now
      = Except.ok ({ s with roomId := some (mkRoomId uid target now) },
          [OutMsg.joinRoom (mkRoomId uid target now),
           OutMsg.request target (mkRoomId uid target now) uid])
    ∧ (ssStartSharing true (some cap) t uid2 tgt2 now2).1.closedPcs
        = t.closedPcs ++ [pc2.id]
    ∧ ((ssStartSharing true (some cap) t uid2 tgt2 now2).1.peerConnection.map PeerConn.id)
        = some t.nextPcId := by
  refine ⟨?_, ?_, ?_⟩
  · simp [startRemoteAccess, h1, ensurePeerConnection, h2]
  · cases tgt2 <;> simp [ssStartSharing, h3, ssNewPc]
  · cases tgt2 <;> simp [ssStartSharing, h3, ssNewPc]

/-- Witness for the second-start theorem: a manager with a live peer
connection and a hook state with an old peer connection. -/
theorem second_start_behaviour_witness :
    (c2RA.currentUserId = some "alice"
      ∧ c2RA.peerConnection = some { id := 0, remoteDescription := none,
                                     localDescription := none,
                                     appliedCandidates := [], tracks := [] }
      ∧ c2SS.peerConnection = some { id := 9, remoteDescription := none,
                                     localDescription := none,
                                     appliedCandidates := [], tracks := [] })
    ∧ (startRemoteAccess c2RA "bob" 5
        = Except.ok ({ c2RA with roomId := some (mkRoomId "alice" "bob" 5) },
            [OutMsg.joinRoom (mkRoomId "alice" "bob" 5),
             OutMsg.request "bob" (mkRoomId "alice" "bob" 5) "alice"])
       ∧ (ssStartSharing true (some 3) c2SS "carol" none 6).1.closedPcs
          = c2SS.closedPcs ++ [9]
       ∧ ((ssStartSharing true (some 3) c2SS "carol" none 6).1.peerConnection.map PeerConn.id)
          = some c2SS.nextPcId) :=
  ⟨⟨rfl, rfl, rfl⟩,
   second_start_behaviour c2RA "alice" "bob" 5
     { id := 0, remoteDescription := none, localDescription := none,
       appliedCandidates := [], tracks := [] }
     c2SS "carol" none 6 3
     { id := 9, remoteDescription := none, localDescription := none,
       appliedCandidates := [], tracks := [] }
     rfl rfl rfl⟩

/-- C7 counterexample: with a connect in flight, the `disconnect` socket
event clears the connecting-in-progress flag, although a disconnect is
neither a connect success nor a connect error — contradicting the claim
that the flag is cleared only on connect success or connect error. -/
theorem flag_cleared_on_disconnect_counterexample :
    c7State.isConnecting = true
    ∧ (onDisconnectEvt c7State).1.isConnecting = false := by
  refine ⟨by decide, by decide⟩

/-- C7 (amended): each `connect` socket event emits exactly one REGISTER for
the connection's user and nothing else (so the re-announcement precedes any
session traffic of the new connection) and clears the connecting flag; each
`reconnect` event re-emits exactly one REGISTER; the connecting flag is
cleared on connect success and connect error, and additionally by the
`disconnect` event and by the `disconnect()` method. -/
theorem register_and_flag_on_socket_events (uid : String) (s : MgrState) :
    (onConnectEvt uid s).2 = [OutMsg.register uid]
    ∧ (onConnectEvt uid s).1.isConnecting = false
    ∧ (onReconnectEvt uid s).2 = [OutMsg.register uid]
    ∧ (onConnectErrorEvt s).1.isConnecting = false
    ∧ (onDisconnectEvt s).1.isConnecting = false
    ∧ (mgrDisconnect s).isConnecting = false :=
  ⟨rfl, rfl, rfl, rfl, rfl, rfl⟩

/-- C8: `connect` is idempotent — connected under the same user it returns
the existing socket with no state change and opens nothing; called for a
different user it disconnects the old socket first and only then allocates
a fresh one; called while a connect for the same user is in flight it
returns the in-flight socket and opens nothing. -/
theorem connect_guard_behaviour (s : MgrState) (uid : String) (k : Sock)
    (hsock : s.socket = some k) :
    (k.connected = true → s.currentUserId = some uid →
        mgrConnect s uid = (s, some k))
    ∧ (s.currentUserId ≠ some uid →
        (mgrConnect s uid).1.disconnectedIds = s.disconnectedIds ++ [k.id]
        ∧ (mgrConnect s uid).2 = some { id := s.nextSocketId, connected := false }
        ∧ (mgrConnect s uid).1.socket = some { id := s.nextSocketId, connected := false })
    ∧ (k.connected = false → s.currentUserId = some uid → s.isConnecting = true →
        mgrConnect s uid = (s, some k)) := by
  refine ⟨?_, ?_, ?_⟩
  · intro hc hu
    simp [mgrConnect, sockConnected, hsock, hc, hu]
  · intro hu
    refine ⟨?_, ?_, ?_⟩ <;>
      simp [mgrConnect, mgrDisconnect, sockConnected, hsock, hu]
  · intro hc hu hic
    simp [mgrConnect, sockConnected, hsock, hc, hu, hic]

/-- Witness for the connect-guard theorem at the three concrete manager
states: connected under u, connected under v, and in flight for u. -/
theorem connect_guard_behaviour_witness :
    mgrConnect c8Connected "u" = (c8Connected, some { id := 4, connected := true })
    ∧ ((mgrConnect c8Other "u").1.disconnectedIds = c8Other.disconnectedIds ++ [4]
       ∧ (mgrConnect c8Other "u").2 = some { id := 5, connected := false }
       ∧ (mgrConnect c8Other "u").1.socket = some { id := 5, connected := false })
    ∧ mgrConnect c8InFlight "u" = (c8InFlight, some { id := 4, connected := false }) :=
  ⟨(connect_guard_behaviour c8Connected "u" { id := 4, connected := true } rfl).1 rfl rfl,
   (connect_guard_behaviour c8Other "u" { id := 4, connected := true } rfl).2.1 (by decide),
   (connect_guard_behaviour c8InFlight "u" { id := 4, connected := false } rfl).2.2 rfl rfl rfl⟩

/-- C4: in every reachable state of the `WebRTCService` reconnection logic
the attempt counter never exceeds the configured maximum (5), the
ice-connected signal resets it to zero, and once the maximum is reached the
next retry declares failure instead of silently retrying; likewise for
`CallService` with its maximum of 3 and its connected signal. -/
theorem reconnect_counter_bounded (s : WRState) (t : CSState)
    (hs : WReachable s) (ht : CSReachable t) :
    s.reconnectionAttempts ≤ WMAX
    ∧ (wStep s WEvent.iceConnected).reconnectionAttempts = 0
    ∧ (s.reconnectionAttempts = WMAX →
        wStep s WEvent.retryTimer = wHandleReconnectionFailure s)
    ∧ t.reconnectAttempts ≤ CMAX
    ∧ (csStep t CEvent.connConnected).reconnectAttempts = 0 := by
  refine ⟨wReachable_le s hs, rfl, ?_, csReachable_le t ht, rfl⟩
  intro h
  simp [wStep, wAttemptReconnection, h]

/-- Witness for the counter-bound theorem at the initial states of both
services. -/
theorem reconnect_counter_bounded_witness :
    wInit.reconnectionAttempts ≤ WMAX
    ∧ (wStep wInit WEvent.iceConnected).reconnectionAttempts = 0
    ∧ (wInit.reconnectionAttempts = WMAX →
        wStep wInit WEvent.retryTimer = wHandleReconnectionFailure wInit)
    ∧ csInit.reconnectAttempts ≤ CMAX
    ∧ (csStep csInit CEvent.connConnected).reconnectAttempts = 0 :=
  reconnect_counter_bounded wInit csInit WReachable.init CSReachable.init

/-- C9: listener registration is set based — registering the same handler
twice for an event leaves it invoked exactly once per delivered event, one
`removeEventListener` call then removes it entirely, and because each
handler runs inside its own try/catch, every registered handler is invoked
no matter which handlers throw. -/
theorem listener_registration_set_semantics
    (hs : List (String × List Nat)) (ev : String) (h : Nat)
    (run : Nat → Except String Unit) (wf : WFHandlers hs) :
    ((forwardEvent run (addEventListener (addEventListener hs ev h) ev h) ev).1).count h = 1
    ∧ h ∉ handlersFor ev
        (removeEventListener (addEventListener (addEventListener hs ev h) ev h) ev h)
    ∧ (forwardEvent run hs ev).1 = handlersFor ev hs := by
  have hidem := addEventListener_idem hs ev h
  refine ⟨?_, ?_, runHandlers_fst run (handlersFor ev hs)⟩
  · rw [forwardEvent, runHandlers_fst, hidem, handlersFor_add]
    by_cases hm : h ∈ handlersFor ev hs
    · simp only [hm, if_true]
      exact List.count_eq_one_of_mem (handlersFor_nodup ev hs wf) hm
    · simp only [hm, if_false]
      rw [List.count_append]
      rw [List.count_eq_zero_of_not_mem hm]
      simp
  · rw [hidem,
      handlersFor_remove (addEventListener hs ev h) ev h
        (map_fst_add_nodup hs ev h wf.1)]
    exact (handlersFor_add_nodup hs ev h wf).not_mem_erase

/-- Witness for the listener-registration theorem: empty registry, handler
0 added twice for the offer event, every handler run throwing. -/
theorem listener_registration_set_semantics_witness :
    WFHandlers ([] : List (String × List Nat))
    ∧ (((forwardEvent (fun _ => Except.error "boom")
          (addEventListener (addEventListener [] "offer" 0) "offer" 0) "offer").1).count 0 = 1
       ∧ 0 ∉ handlersFor "offer"
           (removeEventListener (addEventListener (addEventListener [] "offer" 0) "offer" 0)
             "offer" 0)
       ∧ (forwardEvent (fun _ => Except.error "boom") [] "offer").1 = handlersFor "offer" []) :=
  ⟨by decide,
   listener_registration_set_semantics [] "offer" 0 (fun _ => Except.error "boom") (by decide)⟩
